import Mathlib

/-!
Shallow embedding of the zippy ZIP extractor (Rust sources under src/) used to
check its natural-language specification. Machine integers are modelled as Nat
with explicit reduction modulo 4294967296 (u32) or 65536 (u16) where the Rust
code wraps; byte values are Nat values that theorems constrain below 256 where
that matters. Fallible Rust functions are embedded as Except-valued functions.
-/

namespace Zippy

/-! ## Legacy stream cipher (src/zip_crypto.rs) -/

/-- The 256-entry IEEE CRC-32 lookup table, transcribed from
PRE_CALCULATED_CRC_TABLE in src/zip_crypto.rs. -/
def PRE_CALCULATED_CRC_TABLE : List Nat := [
  0x00000000, 0x77073096, 0xEE0E612C, 0x990951BA, 0x076DC419, 0x706AF48F, 0xE963A535, 0x9E6495A3,
  0x0EDB8832, 0x79DCB8A4, 0xE0D5E91E, 0x97D2D988, 0x09B64C2B, 0x7EB17CBD, 0xE7B82D07, 0x90BF1D91,
  0x1DB71064, 0x6AB020F2, 0xF3B97148, 0x84BE41DE, 0x1ADAD47D, 0x6DDDE4EB, 0xF4D4B551, 0x83D385C7,
  0x136C9856, 0x646BA8C0, 0xFD62F97A, 0x8A65C9EC, 0x14015C4F, 0x63066CD9, 0xFA0F3D63, 0x8D080DF5,
  0x3B6E20C8, 0x4C69105E, 0xD56041E4, 0xA2677172, 0x3C03E4D1, 0x4B04D447, 0xD20D85FD, 0xA50AB56B,
  0x35B5A8FA, 0x42B2986C, 0xDBBBC9D6, 0xACBCF940, 0x32D86CE3, 0x45DF5C75, 0xDCD60DCF, 0xABD13D59,
  0x26D930AC, 0x51DE003A, 0xC8D75180, 0xBFD06116, 0x21B4F4B5, 0x56B3C423, 0xCFBA9599, 0xB8BDA50F,
  0x2802B89E, 0x5F058808, 0xC60CD9B2, 0xB10BE924, 0x2F6F7C87, 0x58684C11, 0xC1611DAB, 0xB6662D3D,
  0x76DC4190, 0x01DB7106, 0x98D220BC, 0xEFD5102A, 0x71B18589, 0x06B6B51F, 0x9FBFE4A5, 0xE8B8D433,
  0x7807C9A2, 0x0F00F934, 0x9609A88E, 0xE10E9818, 0x7F6A0DBB, 0x086D3D2D, 0x91646C97, 0xE6635C01,
  0x6B6B51F4, 0x1C6C6162, 0x856530D8, 0xF262004E, 0x6C0695ED, 0x1B01A57B, 0x8208F4C1, 0xF50FC457,
  0x65B0D9C6, 0x12B7E950, 0x8BBEB8EA, 0xFCB9887C, 0x62DD1DDF, 0x15DA2D49, 0x8CD37CF3, 0xFBD44C65,
  0x4DB26158, 0x3AB551CE, 0xA3BC0074, 0xD4BB30E2, 0x4ADFA541, 0x3DD895D7, 0xA4D1C46D, 0xD3D6F4FB,
  0x4369E96A, 0x346ED9FC, 0xAD678846, 0xDA60B8D0, 0x44042D73, 0x33031DE5, 0xAA0A4C5F, 0xDD0D7CC9,
  0x5005713C, 0x270241AA, 0xBE0B1010, 0xC90C2086, 0x5768B525, 0x206F85B3, 0xB966D409, 0xCE61E49F,
  0x5EDEF90E, 0x29D9C998, 0xB0D09822, 0xC7D7A8B4, 0x59B33D17, 0x2EB40D81, 0xB7BD5C3B, 0xC0BA6CAD,
  0xEDB88320, 0x9ABFB3B6, 0x03B6E20C, 0x74B1D29A, 0xEAD54739, 0x9DD277AF, 0x04DB2615, 0x73DC1683,
  0xE3630B12, 0x94643B84, 0x0D6D6A3E, 0x7A6A5AA8, 0xE40ECF0B, 0x9309FF9D, 0x0A00AE27, 0x7D079EB1,
  0xF00F9344, 0x8708A3D2, 0x1E01F268, 0x6906C2FE, 0xF762575D, 0x806567CB, 0x196C3671, 0x6E6B06E7,
  0xFED41B76, 0x89D32BE0, 0x10DA7A5A, 0x67DD4ACC, 0xF9B9DF6F, 0x8EBEEFF9, 0x17B7BE43, 0x60B08ED5,
  0xD6D6A3E8, 0xA1D1937E, 0x38D8C2C4, 0x4FDFF252, 0xD1BB67F1, 0xA6BC5767, 0x3FB506DD, 0x48B2364B,
  0xD80D2BDA, 0xAF0A1B4C, 0x36034AF6, 0x41047A60, 0xDF60EFC3, 0xA867DF55, 0x316E8EEF, 0x4669BE79,
  0xCB61B38C, 0xBC66831A, 0x256FD2A0, 0x5268E236, 0xCC0C7795, 0xBB0B4703, 0x220216B9, 0x5505262F,
  0xC5BA3BBE, 0xB2BD0B28, 0x2BB45A92, 0x5CB36A04, 0xC2D7FFA7, 0xB5D0CF31, 0x2CD99E8B, 0x5BDEAE1D,
  0x9B64C2B0, 0xEC63F226, 0x756AA39C, 0x026D930A, 0x9C0906A9, 0xEB0E363F, 0x72076785, 0x05005713,
  0x95BF4A82, 0xE2B87A14, 0x7BB12BAE, 0x0CB61B38, 0x92D28E9B, 0xE5D5BE0D, 0x7CDCEFB7, 0x0BDBDF21,
  0x86D3D2D4, 0xF1D4E242, 0x68DDB3F8, 0x1FDA836E, 0x81BE16CD, 0xF6B9265B, 0x6FB077E1, 0x18B74777,
  0x88085AE6, 0xFF0F6A70, 0x66063BCA, 0x11010B5C, 0x8F659EFF, 0xF862AE69, 0x616BFFD3, 0x166CCF45,
  0xA00AE278, 0xD70DD2EE, 0x4E048354, 0x3903B3C2, 0xA7672661, 0xD06016F7, 0x4969474D, 0x3E6E77DB,
  0xAED16A4A, 0xD9D65ADC, 0x40DF0B66, 0x37D83BF0, 0xA9BCAE53, 0xDEBB9EC5, 0x47B2CF7F, 0x30B5FFE9,
  0xBDBDF21C, 0xCABAC28A, 0x53B39330, 0x24B4A3A6, 0xBAD03605, 0xCDD70693, 0x54DE5729, 0x23D967BF,
  0xB3667A2E, 0xC4614AB8, 0x5D681B02, 0x2A6F2B94, 0xB40BBE37, 0xC30C8EA1, 0x5A05DF1B, 0x2D02EF8D]

/-- Default key constants from src/zip_crypto.rs lines 7-9. -/
def PKZIP_KEY0_DEFAULT_VALUE : Nat := 0x12345678

/-- Default key constant for key1. -/
def PKZIP_KEY1_DEFAULT_VALUE : Nat := 0x23456789

/-- Default key constant for key2. -/
def PKZIP_KEY2_DEFAULT_VALUE : Nat := 0x34567890

/-- Cipher state: three 32-bit keys (struct ZipCrypto in src/zip_crypto.rs). -/
structure ZipCrypto where
  key0 : Nat
  key1 : Nat
  key2 : Nat
deriving DecidableEq, Repr

/-- ZipCrypto::new : the fixed initial cipher state. -/
def ZipCrypto.new : ZipCrypto :=
  { key0 := PKZIP_KEY0_DEFAULT_VALUE
    key1 := PKZIP_KEY1_DEFAULT_VALUE
    key2 := PKZIP_KEY2_DEFAULT_VALUE }

/-- ZipCrypto::calculate_crc32 : one CRC-32 table step,
(crc32 >> 8) ^ TABLE[(crc32 & 0xFF) as u8 ^ byte]. -/
def calculate_crc32 (crc32 byte : Nat) : Nat :=
  (crc32 >>> 8) ^^^ PRE_CALCULATED_CRC_TABLE.getD ((crc32 &&& 0xFF) ^^^ byte) 0

/-- ZipCrypto::update_keys : advance the key schedule by one byte.
The key1 update mirrors wrapping_add, wrapping_mul 0x08088405, wrapping_add 1
on u32; the key2 step consumes (key1 >> 24) as u8. -/
def ZipCrypto.update_keys (s : ZipCrypto) (byte : Nat) : ZipCrypto :=
  let key0 := calculate_crc32 s.key0 byte
  let key1 :=
    ((((s.key1 + (key0 &&& 0xFF)) % 4294967296) * 0x08088405) % 4294967296 + 1) % 4294967296
  let key2 := calculate_crc32 s.key2 ((key1 >>> 24) % 256)
  { key0 := key0, key1 := key1, key2 := key2 }

/-- ZipCrypto::stream_byte : temp = (key2 as u16) | 3;
result = (temp.wrapping_mul(temp ^ 1) >> 8) as u8. -/
def ZipCrypto.stream_byte (s : ZipCrypto) : Nat :=
  let temp := (s.key2 % 65536) ||| 3
  ((temp * (temp ^^^ 1)) % 65536) >>> 8

/-- ZipCrypto::process_byte : xor the input byte with the keystream byte, then
advance the key schedule with the xor result (the local variable the source
calls cipher_byte), returning the xor result. -/
def ZipCrypto.process_byte (s : ZipCrypto) (byte : Nat) : Nat × ZipCrypto :=
  let cipher_byte := s.stream_byte ^^^ byte
  (cipher_byte, s.update_keys cipher_byte)

/-- Error type of the cipher reader (enum ZipCryptoError). The source keeps an
error string inside IOError; the message is dropped here. -/
inductive ZipCryptoError where
  | IncorrectPassword
  | IOError
  | EmptyPassword
deriving DecidableEq, Repr

/-- The password feeding loop of ZipCryptoReader::new : start from
ZipCrypto::new and update keys with every password byte in order. -/
def initKeys (password : List Nat) : ZipCrypto :=
  password.foldl (fun s b => s.update_keys b) ZipCrypto.new

/-- Sequentially process a list of bytes through ZipCrypto::process_byte,
returning the outputs and the final state. -/
def processBytes : ZipCrypto → List Nat → List Nat × ZipCrypto
  | s, [] => ([], s)
  | s, b :: rest =>
    let p := s.process_byte b
    let q := processBytes p.2 rest
    (p.1 :: q.1, q.2)

/-- State of a constructed cipher reader: the not-yet-consumed remainder of
the input stream plus the cipher state (struct ZipCryptoReader). -/
structure ZipCryptoReader where
  stream : List Nat
  zip_crypto : ZipCrypto
deriving DecidableEq, Repr

/-- ZipCryptoReader::new : feed the password through the key schedule, read
exactly 12 salt bytes (read_exact fails into IOError when fewer are
available), decode them with process_byte, and accept the password only when
the last decoded byte equals the high-order byte of the expected CRC-32. -/
def ZipCryptoReader.new (password : List Nat) (file_crc32 : Nat) (stream : List Nat) :
    Except ZipCryptoError ZipCryptoReader :=
  let zip_crypto := initKeys password
  if stream.length < 12 then .error .IOError
  else
    let p := processBytes zip_crypto (stream.take 12)
    let crc32_high_order_byte := (file_crc32 >>> 24) % 256
    if crc32_high_order_byte ≠ p.1.getD 11 0 then .error .IncorrectPassword
    else .ok { stream := stream.drop 12, zip_crypto := p.2 }

/-! ## Date and time decoding (src/date_time.rs) -/

/-- Calendar date part of a decoded timestamp (struct ZipDate). -/
structure ZipDate where
  day : Nat
  month : Nat
  year : Nat
deriving DecidableEq, Repr

/-- Time-of-day part of a decoded timestamp (struct ZipTime). -/
structure ZipTime where
  hour : Nat
  min : Nat
  second : Nat
deriving DecidableEq, Repr

/-- Decoded timestamp (struct ZipDateTime). -/
structure ZipDateTime where
  date : ZipDate
  time : ZipTime
deriving DecidableEq, Repr

/-- ZipDateTime::from_bytes : decode packed DOS date and time words, exactly
as the masks and shifts in src/date_time.rs lines 21-35. -/
def ZipDateTime.from_bytes (date time : Nat) : ZipDateTime :=
  let day := date &&& 0x001F
  let month := (date >>> 5) &&& 0x000F
  let year := (date >>> 9) + 1980
  let second := (time &&& 0x001F) * 2
  let min := (time >>> 5) &&& 0x003F
  let hour := time >>> 11
  { date := { day := day, month := month, year := year }
    time := { hour := hour, min := min, second := second } }

/-! ## Byte-source model and header parsing (src/headers.rs) -/

/-- A seekable in-memory byte source: the whole byte list plus a cursor,
modelling the Read + Seek readables the parsers are generic over. -/
structure Reader where
  data : List Nat
  pos : Nat
deriving DecidableEq, Repr

/-- Rust read_exact on a cursor: succeed with the next n bytes and the
advanced cursor exactly when n bytes are available from the cursor. -/
def readExact (r : Reader) (n : Nat) : Option (List Nat × Reader) :=
  if r.pos + n ≤ r.data.length then
    some ((r.data.drop r.pos).take n, { r with pos := r.pos + n })
  else none

/-- LittleEndian::read_u16 of the bytes at positions i and i+1. -/
def leU16 (bs : List Nat) (i : Nat) : Nat :=
  bs.getD i 0 + 256 * bs.getD (i + 1) 0

/-- LittleEndian::read_u32 of the bytes at positions i through i+3. -/
def leU32 (bs : List Nat) (i : Nat) : Nat :=
  bs.getD i 0 + 256 * bs.getD (i + 1) 0 + 65536 * bs.getD (i + 2) 0 +
    16777216 * bs.getD (i + 3) 0

/-- Minimal size of the end-of-central-directory trailer (22 bytes). -/
def MIN_EOF_CENTRAL_DIR_SIZE : Nat := 0x16

/-- Minimal size of a central-directory record (46 bytes). -/
def MIN_CENTRAL_DIR_SIZE : Nat := 0x2E

/-- Fixed trailer signature. -/
def EOF_CENTRAL_DIR_SIGN : Nat := 0x06054b50

/-- Fixed central-directory record signature. -/
def CENTRAL_DIR_SIGN : Nat := 0x02014b50

/-- Size of a data descriptor (12 bytes). -/
def DATA_DESCRIPTOR_SIZE : Nat := 12

/-- Exit code used when reading a data descriptor fails. -/
def DATA_DESCRIPTOR_READ_FAILURE_EXIT_CODE : Int := -4

/-- Error type of the trailer locator (enum EndOfCentralDirectoryError).
The source keeps an error string inside IOError; the message is dropped. -/
inductive EndOfCentralDirectoryError where
  | InvalidZipFile (size : Nat)
  | InvalidSignature (sign : Nat)
  | EmptyZipFile
  | IOError
deriving DecidableEq, Repr

/-- Locator output (struct EndOfCentralDirectory in src/headers.rs). -/
structure EndOfCentralDirectory where
  central_dir_size : Nat
  central_dir_start_offset : Nat
deriving DecidableEq, Repr

/-- EndOfCentralDirectory::from_readable : seek to the end to learn the total
size, reject sources smaller than 22 bytes, read the last 22 bytes, check the
trailer signature, read the one-byte entry count at offset 10 (rejecting 0),
and read the 4-byte central-directory offset at offset 16. -/
def EndOfCentralDirectory.from_readable (r : Reader) :
    Except EndOfCentralDirectoryError (EndOfCentralDirectory × Reader) :=
  let size := r.data.length
  if size < MIN_EOF_CENTRAL_DIR_SIZE then .error (.InvalidZipFile size)
  else
    match readExact { r with pos := size - 0x16 } MIN_EOF_CENTRAL_DIR_SIZE with
    | none => .error .IOError
    | some (eof_central_dir_bytes, r1) =>
      let sign := leU32 eof_central_dir_bytes 0
      if sign ≠ EOF_CENTRAL_DIR_SIGN then .error (.InvalidSignature sign)
      else
        let central_dir_size := eof_central_dir_bytes.getD 10 0
        if central_dir_size = 0 then .error .EmptyZipFile
        else
          let central_dir_start_offset := leU32 eof_central_dir_bytes 16
          .ok ({ central_dir_size := central_dir_size,
                 central_dir_start_offset := central_dir_start_offset }, r1)

/-- Host environments accepted by the parser (enum FileEnvironment). -/
inductive FileEnvironment where
  | MsDos
  | Macintosh
  | OSX
  | WindowsNTFS
  | FAT
  | OS2
  | Unix
deriving DecidableEq, Repr

/-- Error for an unknown environment byte (enum FileEnvironmentError). -/
inductive FileEnvironmentError where
  | InvalidFileEnvironment (byte : Nat)
deriving DecidableEq, Repr

/-- FileEnvironment::from_byte : closed lookup of the environment byte. -/
def FileEnvironment.from_byte (byte : Nat) :
    Except FileEnvironmentError FileEnvironment :=
  if byte = 0 then .ok .MsDos
  else if byte = 3 then .ok .Unix
  else if byte = 6 then .ok .OS2
  else if byte = 7 then .ok .Macintosh
  else if byte = 10 then .ok .WindowsNTFS
  else if byte = 14 then .ok .FAT
  else if byte = 19 then .ok .OSX
  else .error (.InvalidFileEnvironment byte)

/-- Deflate submodes (enum DeflateCompressionMode). -/
inductive DeflateCompressionMode where
  | Normal
  | Maximum
  | Fast
  | SuperFast
deriving DecidableEq, Repr

/-- Compression methods (enum CompressionMethod). -/
inductive CompressionMethod where
  | NoCompression
  | Deflate (mode : DeflateCompressionMode)
deriving DecidableEq, Repr

/-- Error type of the entry parser (enum ZipFileError). The source keeps an
error string inside IOError; the message is dropped here. -/
inductive ZipFileError where
  | InvalidSignature (sign : Nat)
  | UnsupportedZipVersion (version : Nat)
  | UnsupportedCompression (comp : Nat)
  | FileEnvironmentError (err : FileEnvironmentError)
  | IOError
deriving DecidableEq, Repr

/-- Whether a byte is a UTF-8 continuation byte. -/
def utf8Cont (c : Nat) : Bool := 0x80 ≤ c && c ≤ 0xBF

/-- Validity of a byte sequence as UTF-8, the check String::from_utf8
performs in ZipFile::from_readable before accepting a file name. -/
def validUtf8 : List Nat → Bool
  | [] => true
  | b :: rest =>
    if b ≤ 0x7F then validUtf8 rest
    else if 0xC2 ≤ b && b ≤ 0xDF then
      match rest with
      | c1 :: r => utf8Cont c1 && validUtf8 r
      | [] => false
    else if b = 0xE0 then
      match rest with
      | c1 :: c2 :: r => (0xA0 ≤ c1 && c1 ≤ 0xBF) && utf8Cont c2 && validUtf8 r
      | _ => false
    else if (0xE1 ≤ b && b ≤ 0xEC) || b = 0xEE || b = 0xEF then
      match rest with
      | c1 :: c2 :: r => utf8Cont c1 && utf8Cont c2 && validUtf8 r
      | _ => false
    else if b = 0xED then
      match rest with
      | c1 :: c2 :: r => (0x80 ≤ c1 && c1 ≤ 0x9F) && utf8Cont c2 && validUtf8 r
      | _ => false
    else if b = 0xF0 then
      match rest with
      | c1 :: c2 :: c3 :: r =>
        (0x90 ≤ c1 && c1 ≤ 0xBF) && utf8Cont c2 && utf8Cont c3 && validUtf8 r
      | _ => false
    else if 0xF1 ≤ b && b ≤ 0xF3 then
      match rest with
      | c1 :: c2 :: c3 :: r =>
        utf8Cont c1 && utf8Cont c2 && utf8Cont c3 && validUtf8 r
      | _ => false
    else if b = 0xF4 then
      match rest with
      | c1 :: c2 :: c3 :: r =>
        (0x80 ≤ c1 && c1 ≤ 0x8F) && utf8Cont c2 && utf8Cont c3 && validUtf8 r
      | _ => false
    else false

/-- A parsed central-directory entry (struct ZipFile in src/headers.rs). The
file name is kept as its UTF-8 byte list; the three Cell fields are plain
fields here, with mutation modelled by returning an updated structure. -/
structure ZipFile where
  offset : Nat
  environment : FileEnvironment
  is_encrypted : Bool
  compression_method : CompressionMethod
  data_descriptor_used : Bool
  date_time : ZipDateTime
  crc32 : Nat
  compressed_size : Nat
  uncompressed_size : Nat
  file_name : List Nat
  is_dir : Bool
deriving DecidableEq, Repr

/-- The allow-list of version bytes in ZipFile::from_readable. -/
def supported_zip_versions : List Nat := [0x14, 0x1E, 0x3F]

/-- The compression-method match of ZipFile::from_readable (src/headers.rs
lines 279-298): 0 is store, 8 is Deflate with the submode decoded from flag
bits 1-2 (explicit arms 0 Normal, 1 Maximum, 2 Fast, 3 SuperFast, plus the
syntactically required unreachable fallback arm giving Normal); anything
else is an unsupported compression code. -/
def parseCompressionMethod (compression_method_bytes general_purpose_bit_flag : Nat) :
    Except ZipFileError CompressionMethod :=
  if compression_method_bytes = 0x00 then .ok .NoCompression
  else if compression_method_bytes = 0x08 then
    let deflate_mode := (general_purpose_bit_flag >>> 1) &&& 0x0003
    if deflate_mode = 0 then .ok (.Deflate .Normal)
    else if deflate_mode = 1 then .ok (.Deflate .Maximum)
    else if deflate_mode = 2 then .ok (.Deflate .Fast)
    else if deflate_mode = 3 then .ok (.Deflate .SuperFast)
    else .ok (.Deflate .Normal)
  else .error (.UnsupportedCompression compression_method_bytes)

/-- ZipFile::from_readable : read a 46-byte central-directory record, check
its signature, version allow-list and environment byte, decode flags and
compression method, decode the timestamp and the fixed-width fields, read
and UTF-8-validate the name, and reposition the cursor past the extra field
and the comment. A name is a directory name when its last byte is the slash,
matching String::ends_with on UTF-8 text. -/
def ZipFile.from_readable (r : Reader) : Except ZipFileError (ZipFile × Reader) :=
  match readExact r MIN_CENTRAL_DIR_SIZE with
  | none => .error .IOError
  | some (central_dir_bytes, r1) =>
    let sign := leU32 central_dir_bytes 0
    if sign ≠ CENTRAL_DIR_SIGN then .error (.InvalidSignature sign)
    else
      let zip_version := central_dir_bytes.getD 0x04 0
      if ¬ supported_zip_versions.contains zip_version then
        .error (.UnsupportedZipVersion zip_version)
      else
        match FileEnvironment.from_byte (central_dir_bytes.getD 0x05 0) with
        | .error err => .error (.FileEnvironmentError err)
        | .ok environment =>
          let compression_method_bytes := leU16 central_dir_bytes 10
          let general_purpose_bit_flag := leU16 central_dir_bytes 8
          let is_encrypted := (general_purpose_bit_flag &&& 0x0001) == 1
          match parseCompressionMethod compression_method_bytes general_purpose_bit_flag with
          | .error err => .error err
          | .ok compression_method =>
            let data_descriptor_used := ((general_purpose_bit_flag >>> 3) &&& 0x0001) == 1
            let date := leU16 central_dir_bytes 14
            let time := leU16 central_dir_bytes 12
            let zip_date_time := ZipDateTime.from_bytes date time
            let crc32 := leU32 central_dir_bytes 16
            let compressed_size := leU32 central_dir_bytes 20
            let uncompressed_size := leU32 central_dir_bytes 24
            let file_name_len := leU16 central_dir_bytes 28
            let extra_field_len := leU16 central_dir_bytes 30
            let comment_len := leU16 central_dir_bytes 32
            let offset := leU32 central_dir_bytes 42
            match readExact r1 file_name_len with
            | none => .error .IOError
            | some (file_name_bytes, r2) =>
              if ¬ validUtf8 file_name_bytes then .error .IOError
              else
                let is_dir := file_name_bytes.getLast? == some 0x2F
                let new_zip_file_pos := r2.pos + extra_field_len + comment_len
                .ok ({ offset := offset
                       environment := environment
                       is_encrypted := is_encrypted
                       compression_method := compression_method
                       data_descriptor_used := data_descriptor_used
                       date_time := zip_date_time
                       crc32 := crc32
                       compressed_size := compressed_size
                       uncompressed_size := uncompressed_size
                       file_name := file_name_bytes
                       is_dir := is_dir }, { r2 with pos := new_zip_file_pos })

/-- Outcome of ZipFile::update_with_data_descriptor : either the process was
terminated with an exit code (the std::process::exit branch) or the call
returned normally. Both constructors carry the entry as the call leaves it
in memory. -/
inductive DescriptorOutcome where
  | processExit (code : Int) (file : ZipFile)
  | returned (file : ZipFile) (r : Reader)
deriving DecidableEq, Repr

/-- The seek target of the descriptor read: descriptor_end_index - 12 with
u32 wrapping subtraction. -/
def descriptorStart (descriptor_end_index : Nat) : Nat :=
  (descriptor_end_index + 4294967296 - DATA_DESCRIPTOR_SIZE) % 4294967296

/-- ZipFile::update_with_data_descriptor : seek to 12 bytes before the given
end index and read the 12-byte descriptor; on any seek or read failure print
a message and terminate the process with exit code -4; on success overwrite
the crc32, compressed_size and uncompressed_size fields with the three
little-endian words of the descriptor. -/
def ZipFile.update_with_data_descriptor (zf : ZipFile) (r : Reader)
    (descriptor_end_index : Nat) : DescriptorOutcome :=
  match readExact { r with pos := descriptorStart descriptor_end_index }
      DATA_DESCRIPTOR_SIZE with
  | none => .processExit DATA_DESCRIPTOR_READ_FAILURE_EXIT_CODE zf
  | some (data_descriptor_bytes, r1) =>
    .returned
      { zf with
        crc32 := leU32 data_descriptor_bytes 0
        compressed_size := leU32 data_descriptor_bytes 4
        uncompressed_size := leU32 data_descriptor_bytes 8 } r1

/-- The entry as held in memory after update_with_data_descriptor, in both
the returning and the process-terminating outcome. -/
def DescriptorOutcome.file : DescriptorOutcome → ZipFile
  | .processExit _ f => f
  | .returned f _ => f

/-! ## Extraction pipeline (src/archive.rs) -/

/-- Modelled from the spec: the EncryptionMethod enum is declared in
src/headers.rs of the revision src/archive.rs was written against, but the
headers.rs in this snapshot is an earlier revision without it. Its variants
are exactly the ones the exhaustive matches in src/archive.rs enumerate and
section 4.4 of the spec describes: no encryption, the legacy ZipCrypto
cipher, and the recognized-but-unsupported AES marker. -/
inductive EncryptionMethod where
  | NoEncryption
  | ZipCrypto
  | Aes
deriving DecidableEq, Repr

/-- Error type of extraction (enum ExtractError in src/archive.rs); payloads
that are strings or paths are dropped, numeric payloads are kept. -/
inductive ExtractError where
  | IOError
  | InvalidZipFileParent
  | UnableToCreateExtractedFile
  | DeflateDecodingError
  | InvalidExtractedFile (crc32 : Nat) (extracted_file_crc32 : Nat)
  | UnsupportedEncryption (method : EncryptionMethod)
  | ZipCryptoError (err : ZipCryptoError)
deriving DecidableEq, Repr

/-- Length of the random salt prefix ZipCrypto puts before a payload. -/
def ZIP_CRYPTO_RANDOM_BYTES_LEN : Nat := 12

/-- Fixed size of a local file header (30 bytes). -/
def MIN_LOCAL_FILE_HEADER_SIZE : Nat := 30

/-- The view of a catalog entry that the extract implementation reads
(src/archive.rs): the snapshot headers.rs carries an is_encrypted flag while
archive.rs calls self.encryption_method(), so the extraction model takes the
fields extract actually uses, with the encryption method field archive.rs
reads. -/
structure ExtractEntry where
  offset : Nat
  encryption_method : EncryptionMethod
  compression_method : CompressionMethod
  crc32 : Nat
  compressed_size : Nat
  uncompressed_size : Nat
  file_name : List Nat
  is_dir : Bool
deriving DecidableEq, Repr

/-- The extra length added for the cipher salt (src/archive.rs lines
132-140): 0 when unencrypted, 12 for ZipCrypto, and an early
UnsupportedEncryption return for AES. -/
def extraEncryptionLen (e : ExtractEntry) : Except ExtractError Nat :=
  match e.encryption_method with
  | .NoEncryption => .ok 0
  | .ZipCrypto => .ok ZIP_CRYPTO_RANDOM_BYTES_LEN
  | .Aes => .error (.UnsupportedEncryption .Aes)

/-- The Read::take bound of src/archive.rs lines 142-147: uncompressed size
for store, compressed size for Deflate, plus the encryption extra. -/
def takeLen (e : ExtractEntry) (extra_encryption_len : Nat) : Nat :=
  match e.compression_method with
  | .NoCompression => e.uncompressed_size + extra_encryption_len
  | .Deflate _ => e.compressed_size + extra_encryption_len

/-- The byte view handed to decryption and decompression by extract
(src/archive.rs lines 115-147): seek to the entry offset, read the 30-byte
local file header, skip name length plus extra-field length bytes, then
bound the remaining source with Read::take of the computed payload length. -/
def extractBoundedSource (e : ExtractEntry) (r : Reader) :
    Except ExtractError (List Nat) :=
  match readExact { r with pos := e.offset } MIN_LOCAL_FILE_HEADER_SIZE with
  | none => .error .IOError
  | some (local_file_header_bytes, r1) =>
    let file_name_len := e.file_name.length
    let extra_field_len := leU16 local_file_header_bytes 28
    let file_bytes_start_offset := file_name_len + extra_field_len
    let r2 : Reader := { r1 with pos := r1.pos + file_bytes_start_offset }
    match extraEncryptionLen e with
    | .error err => .error err
    | .ok extra_encryption_len =>
      .ok ((r2.data.drop r2.pos).take (takeLen e extra_encryption_len))

/-- The CRC-32 (ISO-HDLC) of a byte list: initial value 0xFFFFFFFF, one
table step per byte, final xor with 0xFFFFFFFF. This is the checksum the
crc crate digest computes over the written bytes in src/archive.rs. -/
def crc32_bytes (bs : List Nat) : Nat :=
  (bs.foldl (fun crc b => calculate_crc32 crc b) 0xFFFFFFFF) ^^^ 0xFFFFFFFF

/-- The integrity gate at the end of extract (src/archive.rs lines 186-200):
for a non-directory entry, compare the declared crc32 field with the CRC-32
accumulated over the written bytes; a mismatch is the error the spec calls
CorruptedOutput, carrying the declared checksum first and the recomputed one
second. -/
def extractVerify (e : ExtractEntry) (written : List Nat) :
    Except ExtractError Unit :=
  let created_file_crc32 := crc32_bytes written
  if ¬ e.is_dir then
    let crc32 := e.crc32
    if crc32 ≠ created_file_crc32 then
      .error (.InvalidExtractedFile crc32 created_file_crc32)
    else .ok ()
  else .ok ()

/-! ## Theorems for the claims -/

/-- The standard ZipCrypto decode step, written from the amended claim: xor
the ciphertext byte with the keystream byte of the current state, then
advance the key schedule with the recovered plaintext byte. -/
def decode_byte_standard (s : ZipCrypto) (cipher_byte : Nat) : Nat × ZipCrypto :=
  let stream := s.stream_byte
  let plain := cipher_byte ^^^ stream
  (plain, s.update_keys plain)

/-- C1 (counterexample): at the initial cipher state with ciphertext byte 0,
process_byte does not advance the key schedule with the consumed ciphertext
byte; the claim fails because update_keys is fed the xor output, which is
the recovered plaintext byte, not the ciphertext byte. -/
theorem C1_counterexample_keys_not_advanced_with_ciphertext :
    ¬ ((ZipCrypto.new.process_byte 0).1 = ZipCrypto.new.stream_byte ^^^ 0 ∧
       (ZipCrypto.new.process_byte 0).2 = ZipCrypto.new.update_keys 0) := by
  decide

/-- C1 (amended): for every cipher state and ciphertext byte, process_byte
returns the ciphertext byte xor the keystream byte of the current state and
advances the key schedule by feeding update_keys the recovered plaintext
byte, which is exactly the commonly documented ZipCrypto decode step. -/
theorem C1_process_byte_is_standard_decode (s : ZipCrypto) (b : Nat) :
    s.process_byte b = decode_byte_standard s b := by
  simp [ZipCrypto.process_byte, decode_byte_standard, Nat.xor_comm]

/-- C7: the decoder takes day, month, year, second, minute and hour from the
claimed bit fields of the packed words, stated arithmetically (bits 0-4 of
the date word are its remainder modulo 32, and so on), and the repository
test vector with date 0x5739 and time 0xA76F decodes to 2023-09-25
20:59:30. -/
theorem C7_datetime_decode :
    (∀ date time : Nat, date < 65536 → time < 65536 →
      ZipDateTime.from_bytes date time =
        { date := { day := date % 32, month := date / 32 % 16,
                    year := date / 512 + 1980 }
          time := { hour := time / 2048, min := time / 32 % 64,
                    second := 2 * (time % 32) } }) ∧
    ZipDateTime.from_bytes 0x5739 0xA76F =
      { date := { day := 25, month := 9, year := 2023 }
        time := { hour := 20, min := 59, second := 30 } } := by
  constructor
  · intro date time _ _
    have hd : date &&& 0x001F = date % 32 := by
      have hx := Nat.and_pow_two_sub_one_eq_mod date 5
      norm_num at hx
      exact hx
    have hmo : (date >>> 5) &&& 0x000F = date / 32 % 16 := by
      have hx := Nat.and_pow_two_sub_one_eq_mod (date >>> 5) 4
      norm_num at hx
      rw [hx, Nat.shiftRight_eq_div_pow]
    have hy : date >>> 9 = date / 512 := by
      rw [Nat.shiftRight_eq_div_pow]
    have hs : (time &&& 0x001F) * 2 = 2 * (time % 32) := by
      have hx := Nat.and_pow_two_sub_one_eq_mod time 5
      norm_num at hx
      rw [hx, Nat.mul_comm]
    have hmi : (time >>> 5) &&& 0x003F = time / 32 % 64 := by
      have hx := Nat.and_pow_two_sub_one_eq_mod (time >>> 5) 6
      norm_num at hx
      rw [hx, Nat.shiftRight_eq_div_pow]
    have hh : time >>> 11 = time / 2048 := by
      rw [Nat.shiftRight_eq_div_pow]
    unfold ZipDateTime.from_bytes
    rw [hd, hmo, hy, hs, hmi, hh]
  · decide

/-- C7 (witness): the general bit-field statement applied at the concrete
packed words 0x5739 and 0xA76F. -/
theorem C7_witness :
    ZipDateTime.from_bytes 0x5739 0xA76F =
      { date := { day := 0x5739 % 32, month := 0x5739 / 32 % 16,
                  year := 0x5739 / 512 + 1980 }
        time := { hour := 0xA76F / 2048, min := 0xA76F / 32 % 64,
                  second := 2 * (0xA76F % 32) } } :=
  C7_datetime_decode.1 0x5739 0xA76F (by decide) (by decide)

/-- C10: from_bytes is total and validates nothing: the decoded second is
always even and at most 62, a date word whose bits 5-8 hold 15 decodes to
month 15, and a date word whose bits 0-4 hold 0 decodes to day 0. -/
theorem C10_from_bytes_no_validation :
    (∀ date time : Nat,
      (ZipDateTime.from_bytes date time).time.second % 2 = 0 ∧
      (ZipDateTime.from_bytes date time).time.second ≤ 62) ∧
    (ZipDateTime.from_bytes 0x01E0 0).date.month = 15 ∧
    (ZipDateTime.from_bytes 0x01E0 0).date.day = 0 := by
  refine ⟨fun date time => ⟨?_, ?_⟩, by decide, by decide⟩
  · simp [ZipDateTime.from_bytes, Nat.mul_mod_left]
  · have hb : time &&& 0x001F ≤ 31 := Nat.and_le_right
    simp only [ZipDateTime.from_bytes]
    omega

/-- The UTF-8 bytes of the name cv_debug.log used by the repository tests. -/
def cvDebugLogBytes : List Nat :=
  [0x63, 0x76, 0x5F, 0x64, 0x65, 0x62, 0x75, 0x67, 0x2E, 0x6C, 0x6F, 0x67]

/-- The entry parsed by the repository test test_successful_zip_file_parsing,
used as a concrete entry for descriptor-resolution statements. -/
def sampleZipFile : ZipFile :=
  { offset := 0
    environment := .Unix
    is_encrypted := false
    compression_method := .Deflate .Normal
    data_descriptor_used := false
    date_time := ZipDateTime.from_bytes 0x5739 0xA76F
    crc32 := 0xB2D7997D
    compressed_size := 0xC6
    uncompressed_size := 0x130
    file_name := cvDebugLogBytes
    is_dir := false }

/-- C3 (counterexample): on an empty byte source the 12-byte descriptor read
fails and update_with_data_descriptor terminates the process with exit code
-4; the outcome is a process exit, not an error value surfaced to the
caller, refuting the claim that the core never terminates the process. -/
theorem C3_counterexample_descriptor_failure_exits :
    sampleZipFile.update_with_data_descriptor { data := [], pos := 0 } 12 =
      .processExit (-4) sampleZipFile := by
  rfl

/-- C3 (amended): whenever the byte source is too short for the 12-byte
descriptor read at the computed start position, update_with_data_descriptor
prints a message and terminates the process with exit code -4, leaving the
entry unchanged; the failure is not returned to the caller as a typed
error. -/
theorem C3_descriptor_read_failure_exits (zf : ZipFile) (r : Reader) (idx : Nat)
    (h : r.data.length < descriptorStart idx + DATA_DESCRIPTOR_SIZE) :
    zf.update_with_data_descriptor r idx =
      .processExit DATA_DESCRIPTOR_READ_FAILURE_EXIT_CODE zf := by
  unfold ZipFile.update_with_data_descriptor readExact
  rw [if_neg (by simp; omega)]

/-- C3 (witness): the amended statement applied to the sample entry, an empty
source and descriptor end index 12. -/
theorem C3_witness :
    ([] : List Nat).length < descriptorStart 12 + DATA_DESCRIPTOR_SIZE ∧
    sampleZipFile.update_with_data_descriptor { data := [], pos := 0 } 12 =
      .processExit DATA_DESCRIPTOR_READ_FAILURE_EXIT_CODE sampleZipFile :=
  ⟨by decide, C3_descriptor_read_failure_exits sampleZipFile { data := [], pos := 0 } 12 (by decide)⟩

/-- C9: update_with_data_descriptor leaves every field other than crc32,
compressed_size and uncompressed_size unchanged, in both the returning and
the process-terminating outcome. -/
theorem C9_descriptor_frame (zf : ZipFile) (r : Reader) (idx : Nat) :
    ((zf.update_with_data_descriptor r idx).file).offset = zf.offset ∧
    ((zf.update_with_data_descriptor r idx).file).environment = zf.environment ∧
    ((zf.update_with_data_descriptor r idx).file).is_encrypted = zf.is_encrypted ∧
    ((zf.update_with_data_descriptor r idx).file).compression_method =
      zf.compression_method ∧
    ((zf.update_with_data_descriptor r idx).file).data_descriptor_used =
      zf.data_descriptor_used ∧
    ((zf.update_with_data_descriptor r idx).file).date_time = zf.date_time ∧
    ((zf.update_with_data_descriptor r idx).file).file_name = zf.file_name ∧
    ((zf.update_with_data_descriptor r idx).file).is_dir = zf.is_dir := by
  unfold ZipFile.update_with_data_descriptor
  split <;> simp [DescriptorOutcome.file]

/-- A concrete central-directory record (the repository test vector with its
general-purpose flag bytes replaced by 0x0006, setting flag bits 1-2 to 11)
followed by the 12-byte name. -/
def c2RecordBytes : List Nat :=
  [0x50, 0x4B, 0x01, 0x02, 0x14, 0x03, 0x14, 0x00, 0x06, 0x00, 0x08, 0x00,
   0x6F, 0xA7, 0x39, 0x57, 0x7D, 0x99, 0xD7, 0xB2, 0xC6, 0x00, 0x00, 0x00,
   0x30, 0x01, 0x00, 0x00, 0x0C, 0x00, 0x20, 0x00, 0x00, 0x00, 0x00, 0x00,
   0x00, 0x00, 0x00, 0x00, 0xA4, 0x81, 0x00, 0x00, 0x00, 0x00] ++ cvDebugLogBytes

/-- C2 (counterexample): parsing a Deflate record whose flag bits 1-2 are 11
yields submode SuperFast, not the claimed Normal. -/
theorem C2_counterexample_flag_bits_11_give_superfast :
    (ZipFile.from_readable { data := c2RecordBytes, pos := 0 }).map
        (fun p => p.1.compression_method) =
      .ok (.Deflate .SuperFast) ∧
    CompressionMethod.Deflate .SuperFast ≠ CompressionMethod.Deflate .Normal :=
  ⟨rfl, by decide⟩

/-- The deflate submode as a function of flag bits 1-2, written from the
amended claim: 00 Normal, 01 Maximum, 10 Fast, 11 SuperFast. -/
def deflateModeOfBits : Nat → DeflateCompressionMode
  | 0 => .Normal
  | 1 => .Maximum
  | 2 => .Fast
  | _ => .SuperFast

/-- C2 (amended): for every general-purpose flag, a record with compression
method 8 (Deflate) gets the submode given by flag bits 1-2 under the mapping
00 Normal, 01 Maximum, 10 Fast, 11 SuperFast. -/
theorem C2_deflate_submode_mapping (general_purpose_bit_flag : Nat) :
    parseCompressionMethod 0x08 general_purpose_bit_flag =
      .ok (.Deflate (deflateModeOfBits ((general_purpose_bit_flag >>> 1) &&& 0x0003))) := by
  have hle : (general_purpose_bit_flag >>> 1) &&& 0x0003 ≤ 3 := Nat.and_le_right
  unfold parseCompressionMethod
  rw [if_neg (by decide), if_pos rfl]
  generalize (general_purpose_bit_flag >>> 1) &&& 0x0003 = m at hle ⊢
  interval_cases m <;> rfl

/-- A concrete non-directory entry used to witness extraction statements. -/
def sampleExtractEntry : ExtractEntry :=
  { offset := 0
    encryption_method := .NoEncryption
    compression_method := .NoCompression
    crc32 := 0
    compressed_size := 2
    uncompressed_size := 2
    file_name := []
    is_dir := false }

/-- C6: for a non-directory entry the integrity gate succeeds exactly when
the CRC-32 accumulated over the written bytes equals the declared crc32
field, and a mismatch produces the corruption error carrying the declared
checksum first and the recomputed one second. -/
theorem C6_crc_gate (e : ExtractEntry) (written : List Nat)
    (h : e.is_dir = false) :
    (extractVerify e written = .ok () ↔ crc32_bytes written = e.crc32) ∧
    (crc32_bytes written ≠ e.crc32 →
      extractVerify e written =
        .error (.InvalidExtractedFile e.crc32 (crc32_bytes written))) := by
  unfold extractVerify
  rw [h]
  by_cases hc : e.crc32 = crc32_bytes written
  · simp [hc]
  · constructor
    · simp [hc]
      intro hx
      exact absurd hx.symm hc
    · intro hx
      simp [hc]

/-- C6 (witness): the gate applied to a concrete mismatching entry: declared
checksum 0 against the written byte 0x61. -/
theorem C6_witness :
    sampleExtractEntry.is_dir = false ∧
    extractVerify sampleExtractEntry [0x61] =
      .error (.InvalidExtractedFile sampleExtractEntry.crc32
        (crc32_bytes [0x61])) :=
  ⟨rfl, (C6_crc_gate sampleExtractEntry [0x61] rfl).2 (by decide)⟩

/-- The payload bound written from the claim: uncompressed size for Store,
compressed size for Deflate, plus 12 bytes when the entry is encrypted with
ZipCrypto. -/
def claimedPayloadBound (e : ExtractEntry) : Nat :=
  (match e.compression_method with
   | .NoCompression => e.uncompressed_size
   | .Deflate _ => e.compressed_size) +
  (if e.encryption_method = .ZipCrypto then ZIP_CRYPTO_RANDOM_BYTES_LEN else 0)

/-- C8: whenever extract reaches the bounding step, the view handed to
decryption and decompression is the take of exactly the claimed number of
bytes of the source after the skipped local header, so its length never
exceeds that bound and no read through it can consume bytes beyond it. -/
theorem C8_take_bound (e : ExtractEntry) (r : Reader) (bs : List Nat)
    (h : extractBoundedSource e r = .ok bs) :
    bs.length ≤ claimedPayloadBound e ∧
    bs = (r.data.drop (e.offset + MIN_LOCAL_FILE_HEADER_SIZE +
        (e.file_name.length +
          leU16 ((r.data.drop e.offset).take MIN_LOCAL_FILE_HEADER_SIZE) 28))).take
        (claimedPayloadBound e) := by
  unfold extractBoundedSource readExact at h
  by_cases hc : e.offset + MIN_LOCAL_FILE_HEADER_SIZE ≤ r.data.length
  · rw [if_pos (by simpa using hc)] at h
    unfold extraEncryptionLen at h
    cases he : e.encryption_method with
    | Aes =>
      rw [he] at h
      exact absurd h (by simp)
    | NoEncryption =>
      rw [he] at h
      simp only [Except.ok.injEq] at h
      have hb : takeLen e 0 = claimedPayloadBound e := by
        unfold takeLen claimedPayloadBound
        rw [he]
        cases e.compression_method <;> simp
      constructor
      · rw [← h, ← hb]
        exact List.length_take_le _ _
      · rw [← h, hb]
    | ZipCrypto =>
      rw [he] at h
      simp only [Except.ok.injEq] at h
      have hb : takeLen e ZIP_CRYPTO_RANDOM_BYTES_LEN = claimedPayloadBound e := by
        unfold takeLen claimedPayloadBound
        rw [he]
        cases e.compression_method <;> simp
      constructor
      · rw [← h, ← hb]
        exact List.length_take_le _ _
      · rw [← h, hb]
  · rw [if_neg (by simpa using hc)] at h
    exact absurd h (by simp)

/-- A byte source for the C8 witness: a 30-byte local header of zeros
followed by three payload bytes. -/
def c8Data : List Nat := List.replicate 30 0 ++ [1, 2, 3]

/-- C8 (witness): the bounding statement applied to the concrete sample
entry of size 2 over the concrete source, whose view is the two bytes 1, 2. -/
theorem C8_witness :
    extractBoundedSource sampleExtractEntry { data := c8Data, pos := 0 } =
      .ok [1, 2] ∧
    ([1, 2] : List Nat).length ≤ claimedPayloadBound sampleExtractEntry :=
  ⟨rfl, (C8_take_bound sampleExtractEntry { data := c8Data, pos := 0 } [1, 2] rfl).1⟩

/-- The UTF-8 bytes of the password test. -/
def test_password : List Nat := [0x74, 0x65, 0x73, 0x74]

/-- The UTF-8 bytes of the password wrong_password. -/
def wrong_password : List Nat :=
  [0x77, 0x72, 0x6F, 0x6E, 0x67, 0x5F, 0x70, 0x61, 0x73, 0x73, 0x77, 0x6F,
   0x72, 0x64]

/-- The 12-byte salt ciphertext of the repository cipher tests. -/
def test_salt : List Nat :=
  [0xCA, 0x2D, 0x1D, 0x27, 0x19, 0x19, 0x63, 0x43, 0x77, 0x9A, 0x71, 0x76]

/-- C4: initialization feeds the password through the key schedule from the
fixed constants, decodes exactly the first 12 bytes of the stream, and
succeeds (returning the remaining stream) exactly when the 12th decoded byte
equals the high-order byte of the target CRC-32, failing IncorrectPassword
otherwise; in particular the password test with CRC-32 0x5579202F and the
test salt succeeds while wrong_password fails IncorrectPassword. -/
theorem C4_cipher_init_check (password : List Nat) (file_crc32 : Nat)
    (salt rest : List Nat) (h : salt.length = 12) :
    (ZipCryptoReader.new password file_crc32 (salt ++ rest) =
        .ok { stream := rest,
              zip_crypto := (processBytes (initKeys password) salt).2 } ↔
      (processBytes (initKeys password) salt).1.getD 11 0 =
        (file_crc32 >>> 24) % 256) ∧
    (ZipCryptoReader.new password file_crc32 (salt ++ rest) =
        .error .IncorrectPassword ↔
      (processBytes (initKeys password) salt).1.getD 11 0 ≠
        (file_crc32 >>> 24) % 256) ∧
    ZipCryptoReader.new test_password 0x5579202F test_salt =
      .ok { stream := [],
            zip_crypto := (processBytes (initKeys test_password) test_salt).2 } ∧
    ZipCryptoReader.new wrong_password 0x5579202F test_salt =
      .error .IncorrectPassword := by
  have h1 : ¬ ((salt ++ rest).length < 12) := by
    simp [List.length_append, h]
  have h2 : (salt ++ rest).take 12 = salt := by
    rw [← h]
    exact List.take_left salt rest
  have h3 : (salt ++ rest).drop 12 = rest := by
    rw [← h]
    exact List.drop_left salt rest
  refine ⟨?_, ?_, rfl, rfl⟩
  · simp only [ZipCryptoReader.new, h2, h3, if_neg h1]
    by_cases hd : (processBytes (initKeys password) salt).1.getD 11 0 =
        (file_crc32 >>> 24) % 256
    · rw [if_neg (fun hne => hne hd.symm)]
      exact iff_of_true rfl hd
    · rw [if_pos (fun he => hd he.symm)]
      exact iff_of_false (by simp) hd
  · simp only [ZipCryptoReader.new, h2, h3, if_neg h1]
    by_cases hd : (processBytes (initKeys password) salt).1.getD 11 0 =
        (file_crc32 >>> 24) % 256
    · rw [if_neg (fun hne => hne hd.symm)]
      exact iff_of_false (by simp) (not_not_intro hd)
    · rw [if_pos (fun he => hd he.symm)]
      exact iff_of_true rfl hd

/-- C4 (witness): the success criterion applied with the password test, the
target CRC-32 0x5579202F, the concrete test salt and an empty remainder. -/
theorem C4_witness :
    test_salt.length = 12 ∧
    ZipCryptoReader.new test_password 0x5579202F (test_salt ++ []) =
      .ok { stream := [],
            zip_crypto := (processBytes (initKeys test_password) test_salt).2 } :=
  ⟨rfl,
    (C4_cipher_init_check test_password 0x5579202F test_salt [] rfl).1.mpr
      (by decide)⟩

/-- C5: the trailer locator fails InvalidZipFile with the source size exactly
on sources smaller than 22 bytes; otherwise it reads the last 22 bytes and
fails InvalidSignature with the 32-bit value read when the signature is
wrong, fails EmptyZipFile when the single entry-count byte at offset 10 is
zero (that single byte also caps the count at 255 on byte-valued sources),
and otherwise returns the count and the little-endian central-directory
offset at byte 16. -/
theorem C5_eocd_locator (r : Reader) :
    (r.data.length < 22 →
      EndOfCentralDirectory.from_readable r =
        .error (.InvalidZipFile r.data.length)) ∧
    ((∀ b ∈ r.data, b < 256) →
      (r.data.drop (r.data.length - 22)).getD 10 0 ≤ 255) ∧
    (22 ≤ r.data.length →
      (leU32 (r.data.drop (r.data.length - 22)) 0 ≠ 0x06054b50 →
        EndOfCentralDirectory.from_readable r =
          .error (.InvalidSignature (leU32 (r.data.drop (r.data.length - 22)) 0))) ∧
      (leU32 (r.data.drop (r.data.length - 22)) 0 = 0x06054b50 →
        ((r.data.drop (r.data.length - 22)).getD 10 0 = 0 →
          EndOfCentralDirectory.from_readable r = .error .EmptyZipFile) ∧
        ((r.data.drop (r.data.length - 22)).getD 10 0 ≠ 0 →
          EndOfCentralDirectory.from_readable r =
            .ok ({ central_dir_size := (r.data.drop (r.data.length - 22)).getD 10 0,
                   central_dir_start_offset :=
                     leU32 (r.data.drop (r.data.length - 22)) 16 },
                 { data := r.data, pos := r.data.length })))) := by
  refine ⟨?_, ?_, ?_⟩
  · intro hlt
    unfold EndOfCentralDirectory.from_readable MIN_EOF_CENTRAL_DIR_SIZE
    rw [if_pos (by simpa using hlt)]
  · intro hb
    by_cases h10 : 10 < (r.data.drop (r.data.length - 22)).length
    · rw [List.getD_eq_getElem _ 0 h10]
      have hmem : (r.data.drop (r.data.length - 22))[10] ∈ r.data :=
        List.mem_of_mem_drop (List.getElem_mem h10)
      have hlt := hb _ hmem
      omega
    · rw [List.getD_eq_default _ 0 (by omega)]
      omega
  · intro hge
    have hcond : (r.data.length - 0x16) + 0x16 ≤ r.data.length := by omega
    have htk : ((r.data.drop (r.data.length - 22)).take 22) =
        r.data.drop (r.data.length - 22) := by
      apply List.take_of_length_le
      rw [List.length_drop]
      omega
    have hpos : r.data.length - 22 + 22 = r.data.length := by omega
    unfold EndOfCentralDirectory.from_readable MIN_EOF_CENTRAL_DIR_SIZE
    unfold EOF_CENTRAL_DIR_SIGN readExact
    rw [if_neg (by omega)]
    simp only
    rw [if_pos (by simpa using hcond)]
    simp only
    rw [htk, hpos]
    by_cases hsig : leU32 (r.data.drop (r.data.length - 22)) 0 = 0x06054b50
    · refine ⟨fun hns => absurd hsig hns, fun _ => ⟨?_, ?_⟩⟩
      · intro hz
        rw [if_neg (by simp [hsig]), if_pos hz]
      · intro hnz
        rw [if_neg (by simp [hsig]), if_neg hnz]
    · refine ⟨fun _ => ?_, fun hs => absurd hs hsig⟩
      rw [if_pos (by simpa using hsig)]

/-- The well-formed 22-byte trailer of the repository locator test: entry
count 1, central-directory offset 0x120. -/
def c5TrailerBytes : List Nat :=
  [0x50, 0x4B, 0x05, 0x06, 0x00, 0x00, 0x00, 0x00, 0x01, 0x00, 0x01, 0x00,
   0x5A, 0x00, 0x00, 0x00, 0x20, 0x01, 0x00, 0x00, 0x00, 0x00]

/-- C5 (witness): the locator contract applied to the concrete well-formed
22-byte trailer, giving entry count 1 and offset 0x120. -/
theorem C5_witness :
    22 ≤ c5TrailerBytes.length ∧
    EndOfCentralDirectory.from_readable { data := c5TrailerBytes, pos := 0 } =
      .ok ({ central_dir_size := 1, central_dir_start_offset := 0x0120 },
           { data := c5TrailerBytes, pos := 22 }) := by
  refine ⟨by decide, ?_⟩
  have hx := ((C5_eocd_locator { data := c5TrailerBytes, pos := 0 }).2.2
      (by decide)).2 (by decide) |>.2 (by decide)
  exact hx

end Zippy
